import Mathlib

/-!
Verification development for `update_channel.py` (discord-month-bot).

The script derives an in-universe calendar label (month + year) from fixed
anchor parameters carried in a URL query string, and synchronizes that label
onto a Discord channel name, writing only when the computed label differs
from the remote one.

Shallow embedding conventions:
* Real-time instants and durations are modelled in exact integer
  milliseconds (`Int`).  The Python script works with IEEE floats, but every
  quantity it manipulates at the scales involved (≲ 10^13 ms, products
  ≲ 10^17) is far below 2^53, where float arithmetic on integral values is
  exact, so the integer model is faithful.
* Python `//` and `%` on ints are floored division and floored modulus;
  they are embedded as `Int.fdiv` and `Int.fmod`.  `math.floor(a / b)` for
  integral `a`, `b` with `b ≠ 0` is likewise `Int.fdiv a b`.
* Python raises exceptions; fallible code is embedded with `Except` /
  `Option`, and process exit codes are computed explicitly.
-/

namespace UpdateChannel

/-- MONTH_NAMES table (src/update_channel.py lines 33-36). -/
def MONTH_NAMES : List String :=
  ["January", "February", "March", "April", "May", "June",
   "July", "August", "September", "October", "November", "December"]

/-- RETRY_COUNT (line 42). -/
def RETRY_COUNT : Nat := 3

/-- RETRY_BACKOFF_SEC (line 43), seconds. -/
def RETRY_BACKOFF_SEC : List Nat := [2, 6, 20]

/-- MONTHS_PER_YEAR (line 58). -/
def MONTHS_PER_YEAR : Int := 12

/-- Calendar anchor parameters parsed out of the COMPUPRO_URL query string
(lines 53-56): `daysperyear`, `lastdatechange` (ms), `lastdateepoch` (ms).
The `fixedyears` flag present in the URL is never read by the script. -/
structure CompuproParams where
  daysperyear : Int
  lastdatechange_ms : Int
  lastdateepoch_ms : Int
deriving Repr, DecidableEq

/-- Query parameters embedded in COMPUPRO_URL (lines 22-25):
`?daysperyear=7&lastdatechange=1757721600000&lastdateepoch=-4449513600000`. -/
def defaultParams : CompuproParams :=
  { daysperyear := 7
    lastdatechange_ms := 1757721600000
    lastdateepoch_ms := -4449513600000 }

/-- Lines 59-60: `hours_per_month = (daysperyear * 24) / MONTHS_PER_YEAR`,
`month_ms = hours_per_month * 3600 * 1000`.  Since `24 / 12 = 2` exactly,
`month_ms = daysperyear * 2 * 3600 * 1000` with no rounding. -/
def month_ms (p : CompuproParams) : Int :=
  p.daysperyear * 2 * 3600 * 1000

/-- Proleptic-Gregorian year of a day count relative to 1970-01-01 (civil
calendar, Hinnant's `civil_from_days`); this is the `year` field computed by
`datetime.utcfromtimestamp` on line 70.  All divisions below act on
nonnegative operands, where `fdiv` agrees with Python `//`. -/
def yearOfDays (z0 : Int) : Int :=
  let z := z0 + 719468
  let era := z.fdiv 146097
  let doe := z - era * 146097
  let yoe := (doe - doe.fdiv 1460 + doe.fdiv 36524 - doe.fdiv 146096).fdiv 365
  let y := yoe + era * 400
  let doy := doe - (365 * yoe + yoe.fdiv 4 - yoe.fdiv 100)
  let mp := (5 * doy + 2).fdiv 153
  let m := mp + (if mp < 10 then 3 else -9)
  y + (if m ≤ 2 then 1 else 0)

/-- Line 70: `datetime.utcfromtimestamp(anchor_rp_epoch_ms / 1000.0).year`:
milliseconds → seconds → days → proleptic-Gregorian year (UTC). -/
def yearFromEpochMs (ms : Int) : Int :=
  yearOfDays ((ms.fdiv 1000).fdiv 86400)

/-- Result dictionary of `rp_from_compupro_url` (lines 81-90). -/
structure RPInfo where
  current_year : Int
  current_month : Int
  ms_into_month : Int
  month_ms : Int
  anchor_real_ms : Int
  anchor_rp_epoch_ms : Int
  next_month_start_ms : Int
  next_year_start_ms : Int
deriving Repr, DecidableEq

/-- Line 66: `elapsed_ms = now_ms - anchor_real_ms`. -/
def elapsed_ms (p : CompuproParams) (now_ms : Int) : Int :=
  now_ms - p.lastdatechange_ms

/-- Line 68: `total_months = math.floor(elapsed_ms / month_ms)`; `Int.fdiv`
is ⌊a / b⌋ for every nonzero divisor.  Only meaningful when
`month_ms p ≠ 0` (the zero case raises in Python, see `rp_from_params`). -/
def total_months (p : CompuproParams) (now_ms : Int) : Int :=
  (elapsed_ms p now_ms).fdiv (month_ms p)

/-- Body of `rp_from_compupro_url` (lines 58-90) after the parameters are
parsed, assuming `month_ms p ≠ 0` so no division raises.  Each field mirrors
one assignment of the source. -/
def rp_info (p : CompuproParams) (now_ms : Int) : RPInfo :=
  let tm := total_months p now_ms
  let years_elapsed := tm.fdiv MONTHS_PER_YEAR
  let anchor_year := yearFromEpochMs p.lastdateepoch_ms
  let months_until_year_end := MONTHS_PER_YEAR - (tm.fmod MONTHS_PER_YEAR + 1) + 1
  { current_year := anchor_year + years_elapsed
    current_month := tm.fmod MONTHS_PER_YEAR + 1
    ms_into_month := elapsed_ms p now_ms - tm * month_ms p
    month_ms := month_ms p
    anchor_real_ms := p.lastdatechange_ms
    anchor_rp_epoch_ms := p.lastdateepoch_ms
    next_month_start_ms := p.lastdatechange_ms + (tm + 1) * month_ms p
    next_year_start_ms := p.lastdatechange_ms + (tm + months_until_year_end) * month_ms p }

/-- `rp_from_compupro_url` (lines 51-90) on already-parsed parameters.
When `month_ms p = 0` (i.e. `daysperyear = 0`) the Python expression
`elapsed_ms / month_ms` raises `ZeroDivisionError`; there is no other
validation, so every other parameter value produces a snapshot. -/
def rp_from_params (p : CompuproParams) (now_ms : Int) : Except String RPInfo :=
  if month_ms p = 0 then .error "ZeroDivisionError: float division by zero"
  else .ok (rp_info p now_ms)

/-- Discriminates `Except.ok` results of the translator. -/
def exceptIsOk (e : Except String RPInfo) : Bool :=
  match e with
  | .ok _ => true
  | .error _ => false

/-- Line 95: index used into MONTH_NAMES: `(current_month - 1) % 12`,
a Python floored modulus, always in [0, 11]. -/
def month_name_index (current_month : Int) : Nat :=
  ((current_month - 1).fmod 12).toNat

/-- Lookup `MONTH_NAMES[(current_month - 1) % 12]` (line 95); `none` models
an IndexError, which the totality theorem rules out.  (The index is
nonnegative, so Python's negative-index wraparound never applies.) -/
def month_name_lookup (current_month : Int) : Option String :=
  MONTH_NAMES.get? (month_name_index current_month)

/-- `compute_channel_name` (lines 93-96) for a given instant: formats
`"📅 {month_name} {current_year}"` over the default URL parameters. -/
def compute_channel_name (now_ms : Int) : Option (String × RPInfo) :=
  match rp_from_params defaultParams now_ms with
  | .error _ => none
  | .ok info =>
    match month_name_lookup info.current_month with
    | none => none
    | some mn => some ("📅 " ++ mn ++ " " ++ toString info.current_year, info)

/-! ### HTTP retry helpers (lines 112-187) -/

/-- Outcome of a single `urlopen` attempt inside the retry loops: a
response, an `HTTPError` (whose body may contain the Cloudflare pattern
`"error code: 1010"`), or a `URLError`. -/
inductive Attempt where
  | ok (body : String) (code : Int)
  | httpErr (body_has_1010 : Bool)
  | urlErr
deriving Repr, DecidableEq

/-- How a retry loop finishes: a returned `(body, code)` pair (line 121 /
162), a raised enriched `HTTPError` (line 136 / 175), or a raised
`URLError` (line 146 / 184). -/
inductive ReqOutcome where
  | returned (body : String) (code : Int)
  | raisedHttp
  | raisedUrl
deriving Repr, DecidableEq

/-- Execution trace of one retry loop: final outcome, number of `urlopen`
attempts performed, and the sleeps (in seconds) taken between attempts. -/
structure LoopTrace where
  outcome : ReqOutcome
  attemptsUsed : Nat
  sleeps : List Nat
deriving Repr, DecidableEq

/-- Backoff before the retry that follows attempt number `attempt`
(lines 130/141/170/179): `RETRY_BACKOFF_SEC[min(attempt, len - 1)]`. -/
def backoff_at (attempt : Nat) : Nat :=
  RETRY_BACKOFF_SEC.getD (min attempt (RETRY_BACKOFF_SEC.length - 1)) 0

/-- Shared retry loop of `http_get_with_retries` (lines 112-149) and
`http_patch_json_with_retries` (lines 152-187).  `outcomes n` is the result
of the `urlopen` call on 0-based attempt number `n`; `attempt` is the loop
counter and `fuel = retries - attempt` counts the retries still allowed, so
`fuel = 0` exactly when `attempt = retries`, where the `attempt < retries`
guards fail and every error is raised.  The `while attempt <= retries`
condition can never become false (the counter is incremented only behind an
`attempt < retries` guard), so lines 147-149 / 185-187 are dead code and
the loop always ends in a `return` or a `raise`. -/
def retry_loop (outcomes : Nat → Attempt) (attempt : Nat) : Nat → LoopTrace
  | 0 =>
    match outcomes attempt with
    | .ok body code => { outcome := .returned body code, attemptsUsed := 1, sleeps := [] }
    | .httpErr _ => { outcome := .raisedHttp, attemptsUsed := 1, sleeps := [] }
    | .urlErr => { outcome := .raisedUrl, attemptsUsed := 1, sleeps := [] }
  | fuel + 1 =>
    match outcomes attempt with
    | .ok body code => { outcome := .returned body code, attemptsUsed := 1, sleeps := [] }
    | .httpErr has1010 =>
      if has1010 then
        let rest := retry_loop outcomes (attempt + 1) fuel
        { outcome := rest.outcome, attemptsUsed := rest.attemptsUsed + 1,
          sleeps := backoff_at attempt :: rest.sleeps }
      else { outcome := .raisedHttp, attemptsUsed := 1, sleeps := [] }
    | .urlErr =>
      let rest := retry_loop outcomes (attempt + 1) fuel
      { outcome := rest.outcome, attemptsUsed := rest.attemptsUsed + 1,
        sleeps := backoff_at attempt :: rest.sleeps }

/-- `http_get_with_retries(url, token, retries)` (lines 112-149) abstracted
over the network; the url/token shape the request, not the control flow. -/
def http_get_with_retries (outcomes : Nat → Attempt) (retries : Nat) : LoopTrace :=
  retry_loop outcomes 0 retries

/-- `http_patch_json_with_retries(url, token, data, retries)` (lines
152-187): identical control flow; the JSON payload is serialized once
before the loop (line 156) and does not influence it. -/
def http_patch_json_with_retries (_data : String) (outcomes : Nat → Attempt)
    (retries : Nat) : LoopTrace :=
  retry_loop outcomes 0 retries

/-- Attempt outcomes the loops retry on (when a retry remains): an
`HTTPError` whose body contains `"error code: 1010"`, or a `URLError`. -/
def Attempt.retryable : Attempt → Bool
  | .ok _ _ => false
  | .httpErr b => b
  | .urlErr => true

/-- How the last attempt of a loop surfaces when no retry is taken. -/
def Attempt.finalResult : Attempt → ReqOutcome
  | .ok body code => .returned body code
  | .httpErr _ => .raisedHttp
  | .urlErr => .raisedUrl

/-! ### main (lines 195-257): synchronizer decision and exit status -/

/-- GET phase of `main` as observed by the rest of the function: `failure`
covers every exception path (lines 208-221, all of which `return`);
`ok status parse` is a response, where `parse = none` models a JSON body
that fails to parse (lines 227-231) and `parse = some name` carries
`info_json.get("name")` (line 233), itself `none` when the key is absent
(Python `None`, which compares unequal to every string). -/
inductive GetResult where
  | failure
  | ok (status : Int) (parse : Option (Option String))
deriving Repr, DecidableEq

/-- PATCH requests issued by `main` (lines 236-242), as the list of `name`
payloads sent.  The GET-failure, non-200, JSON-parse-failure and
name-already-up-to-date paths all `return` before reaching the PATCH; the
PATCH itself is attempted at most once per run. -/
def main_writes (g : GetResult) (new_name : String) : List String :=
  match g with
  | .failure => []
  | .ok status parse =>
    if status ≠ 200 then []
    else
      match parse with
      | none => []
      | some current_name =>
        if current_name = some new_name then [] else [new_name]

/-- Python `not TOKEN` for `TOKEN = os.getenv("DISCORD_TOKEN")` (lines
28-29): true when the variable is unset or set to the empty string. -/
def token_missing : Option String → Bool
  | none => true
  | some s => s = ""

/-- Configuration and network nondeterminism observable by one run. -/
structure RunEnv where
  channel_id_parses : Bool
  discord_token : Option String
  get_result : GetResult
  patch_outcome : ReqOutcome
deriving Repr, DecidableEq

/-- Process exit status of one run of the script.  At module level (lines
27-30) a CHANNEL_ID value that fails `int(...)` raises an uncaught
`ValueError` (Python exits 1) and a missing/empty DISCORD_TOKEN raises
`SystemExit(<string message>)`, which also exits 1.  Inside `main` (lines
206-257) every exception of the GET and PATCH phases is caught by the
`except` clauses and turned into a `return`, so once configuration loading
succeeds the interpreter exits 0 whatever the two network calls do. -/
def run_exit_code (env : RunEnv) : Nat :=
  if env.channel_id_parses = false then 1
  else if token_missing env.discord_token then 1
  else 0

/-! ### Arithmetic helper lemmas -/

theorem month_ms_pos {p : CompuproParams} (h : 0 < p.daysperyear) :
    0 < month_ms p := by
  unfold month_ms
  positivity

theorem month_ms_eq_zero_iff (p : CompuproParams) :
    month_ms p = 0 ↔ p.daysperyear = 0 := by
  unfold month_ms
  omega

theorem fmod_nonneg_of_pos (a : Int) {m : Int} (hm : 0 < m) : 0 ≤ a.fmod m := by
  rw [Int.fmod_eq_emod _ hm.le]
  exact Int.emod_nonneg a hm.ne'

theorem fmod_lt_of_pos (a : Int) {m : Int} (hm : 0 < m) : a.fmod m < m := by
  rw [Int.fmod_eq_emod _ hm.le]
  exact Int.emod_lt_of_pos a hm

theorem sub_fdiv_mul_eq_fmod (a m : Int) : a - a.fdiv m * m = a.fmod m := by
  have h := Int.fdiv_add_fmod a m
  rw [mul_comm] at h
  linarith

theorem fdiv_eq_of_bounds {a k m : Int} (hm : 0 < m) (h1 : k * m ≤ a)
    (h2 : a < (k + 1) * m) : a.fdiv m = k := by
  rw [Int.fdiv_eq_ediv _ hm.le]
  have h3 : a = (a - k * m) + m * k := by ring
  have hx : (k + 1) * m = k * m + m := by ring
  have h4 : (a - k * m) / m = 0 :=
    Int.ediv_eq_zero_of_lt (by linarith) (by linarith)
  rw [h3, Int.add_mul_ediv_left _ k hm.ne', h4, zero_add]

/-! ### Claim theorems: the calendar translator -/

/-- C1: for every valid configuration (`daysperyear > 0`) and every instant
`now`, pre-anchor instants included, the translator succeeds and computes
`years_elapsed` and the month index by floored division/modulo of
`total_months` by 12 (characterized by `12 * q + r = total ∧ 0 ≤ r < 12`),
so the month index lies in [0,11], `current_month` lies in [1,12], and
`current_year = anchorYear + years_elapsed`. -/
theorem claim1_floored_year_month (p : CompuproParams) (now_ms : Int)
    (h : 0 < p.daysperyear) :
    rp_from_params p now_ms = Except.ok (rp_info p now_ms) ∧
    (rp_info p now_ms).current_year
      = yearFromEpochMs p.lastdateepoch_ms + (total_months p now_ms).fdiv 12 ∧
    (rp_info p now_ms).current_month = (total_months p now_ms).fmod 12 + 1 ∧
    12 * (total_months p now_ms).fdiv 12 + (total_months p now_ms).fmod 12
      = total_months p now_ms ∧
    0 ≤ (total_months p now_ms).fmod 12 ∧
    (total_months p now_ms).fmod 12 < 12 ∧
    1 ≤ (rp_info p now_ms).current_month ∧
    (rp_info p now_ms).current_month ≤ 12 := by
  have hm := month_ms_pos h
  have h0 := fmod_nonneg_of_pos (total_months p now_ms) (show (0:Int) < 12 by norm_num)
  have h1 := fmod_lt_of_pos (total_months p now_ms) (show (0:Int) < 12 by norm_num)
  refine ⟨?_, ?_, ?_, Int.fdiv_add_fmod _ 12, h0, h1, ?_, ?_⟩
  · simp [rp_from_params, hm.ne']
  · simp [rp_info, MONTHS_PER_YEAR]
  · simp [rp_info, MONTHS_PER_YEAR]
  · simp only [rp_info, MONTHS_PER_YEAR]
    omega
  · simp only [rp_info, MONTHS_PER_YEAR]
    omega

/-- C1 witness: the default configuration at `now = 0`, a pre-anchor instant
(negative elapsed time). -/
theorem claim1_witness :
    0 < defaultParams.daysperyear ∧
    (rp_from_params defaultParams 0 = Except.ok (rp_info defaultParams 0) ∧
    (rp_info defaultParams 0).current_year
      = yearFromEpochMs defaultParams.lastdateepoch_ms
        + (total_months defaultParams 0).fdiv 12 ∧
    (rp_info defaultParams 0).current_month
      = (total_months defaultParams 0).fmod 12 + 1 ∧
    12 * (total_months defaultParams 0).fdiv 12 + (total_months defaultParams 0).fmod 12
      = total_months defaultParams 0 ∧
    0 ≤ (total_months defaultParams 0).fmod 12 ∧
    (total_months defaultParams 0).fmod 12 < 12 ∧
    1 ≤ (rp_info defaultParams 0).current_month ∧
    (rp_info defaultParams 0).current_month ≤ 12) :=
  ⟨by decide, claim1_floored_year_month defaultParams 0 (by decide)⟩

/-- C2: for every valid configuration and every instant, `ms_into_month`
equals `elapsed_ms − total_months × month_ms` where `total_months` is the
floor of `elapsed_ms / month_ms`, and it always lies in `[0, month_ms)`,
negative elapsed time included. -/
theorem claim2_elapsed_into_month (p : CompuproParams) (now_ms : Int)
    (h : 0 < p.daysperyear) :
    (rp_info p now_ms).ms_into_month
      = elapsed_ms p now_ms - total_months p now_ms * month_ms p ∧
    total_months p now_ms = (elapsed_ms p now_ms).fdiv (month_ms p) ∧
    0 ≤ (rp_info p now_ms).ms_into_month ∧
    (rp_info p now_ms).ms_into_month < month_ms p := by
  have hm := month_ms_pos h
  have he : (rp_info p now_ms).ms_into_month
      = (elapsed_ms p now_ms).fmod (month_ms p) := by
    simp only [rp_info]
    exact sub_fdiv_mul_eq_fmod _ _
  refine ⟨?_, rfl, ?_, ?_⟩
  · simp [rp_info]
  · rw [he]
    exact fmod_nonneg_of_pos _ hm
  · rw [he]
    exact fmod_lt_of_pos _ hm

/-- C2 witness: the default configuration at the pre-anchor instant
`now = 0` (negative `elapsed_ms`). -/
theorem claim2_witness :
    0 < defaultParams.daysperyear ∧
    ((rp_info defaultParams 0).ms_into_month
      = elapsed_ms defaultParams 0 - total_months defaultParams 0 * month_ms defaultParams ∧
    total_months defaultParams 0
      = (elapsed_ms defaultParams 0).fdiv (month_ms defaultParams) ∧
    0 ≤ (rp_info defaultParams 0).ms_into_month ∧
    (rp_info defaultParams 0).ms_into_month < month_ms defaultParams) :=
  ⟨by decide, claim2_elapsed_into_month defaultParams 0 (by decide)⟩

/-- C3: with the embedded default anchor parameters, the month duration is
50,400,000 ms and evaluating the translator exactly at the anchor yields
`elapsed_ms = 0`, `total_months = 0`, `ms_into_month = 0`, `month = 1`, and
the proleptic-Gregorian year of `lastdateepoch`, namely 1829. -/
theorem claim3_anchor_scenario :
    month_ms defaultParams = 50400000 ∧
    elapsed_ms defaultParams 1757721600000 = 0 ∧
    total_months defaultParams 1757721600000 = 0 ∧
    rp_from_params defaultParams 1757721600000
      = Except.ok (rp_info defaultParams 1757721600000) ∧
    (rp_info defaultParams 1757721600000).ms_into_month = 0 ∧
    (rp_info defaultParams 1757721600000).current_month = 1 ∧
    (rp_info defaultParams 1757721600000).current_year
      = yearFromEpochMs defaultParams.lastdateepoch_ms ∧
    yearFromEpochMs defaultParams.lastdateepoch_ms = 1829 := by
  refine ⟨rfl, rfl, by decide, ?_, by decide, by decide, by decide, by decide⟩
  simp [rp_from_params]
  decide

/-- C4 counterexample: `daysperyear = -7 ≤ 0`, yet the translator signals no
error and produces a snapshot — there is no fail-fast validation for
nonpositive values. -/
theorem claim4_counterexample :
    ({ daysperyear := -7, lastdatechange_ms := 1757721600000,
       lastdateepoch_ms := -4449513600000 } : CompuproParams).daysperyear ≤ 0 ∧
    exceptIsOk (rp_from_params
      { daysperyear := -7, lastdatechange_ms := 1757721600000,
        lastdateepoch_ms := -4449513600000 } 0) = true := by
  refine ⟨by decide, by decide⟩

/-- C4 amended: the translator performs no configuration validation; it
fails (the ZeroDivisionError of `elapsed_ms / month_ms`) exactly when
`daysperyear = 0`, and for every other value — negative included — it
silently produces a snapshot. -/
theorem claim4_amended (p : CompuproParams) (now_ms : Int) :
    exceptIsOk (rp_from_params p now_ms) = false ↔ p.daysperyear = 0 := by
  rw [← month_ms_eq_zero_iff]
  unfold rp_from_params
  rcases eq_or_ne (month_ms p) 0 with hz | hz
  · simp [hz, exceptIsOk]
  · simp [hz, exceptIsOk]

/-- C5: for every valid configuration, `next_year_start_ms` equals
`anchor + (total_months + (12 − monthIndex)) × month_ms` (the source's
`12 − (idx + 1) + 1` simplifies to `12 − idx`), and re-evaluating the
translator at any instant in the first month past that boundary yields a
year greater by exactly 1 and month 1. -/
theorem claim5_year_rollover (p : CompuproParams) (now_ms now2_ms : Int)
    (h : 0 < p.daysperyear)
    (h1 : (rp_info p now_ms).next_year_start_ms ≤ now2_ms)
    (h2 : now2_ms < (rp_info p now_ms).next_year_start_ms + month_ms p) :
    (rp_info p now_ms).next_year_start_ms
      = p.lastdatechange_ms
        + (total_months p now_ms + (12 - (total_months p now_ms).fmod 12))
          * month_ms p ∧
    (rp_info p now2_ms).current_year = (rp_info p now_ms).current_year + 1 ∧
    (rp_info p now2_ms).current_month = 1 := by
  have hm := month_ms_pos h
  have hB : (rp_info p now_ms).next_year_start_ms
      = p.lastdatechange_ms
        + (total_months p now_ms + (12 - (total_months p now_ms).fmod 12))
          * month_ms p := by
    simp only [rp_info, MONTHS_PER_YEAR]
    ring
  have hti : 12 * (total_months p now_ms).fdiv 12 + (total_months p now_ms).fmod 12
      = total_months p now_ms := Int.fdiv_add_fmod _ 12
  rw [hB] at h1 h2
  have htot2 : total_months p now2_ms
      = total_months p now_ms + (12 - (total_months p now_ms).fmod 12) := by
    apply fdiv_eq_of_bounds hm
    · simp only [elapsed_ms]
      linarith
    · simp only [elapsed_ms]
      have hx : (total_months p now_ms + (12 - (total_months p now_ms).fmod 12) + 1)
          * month_ms p
          = (total_months p now_ms + (12 - (total_months p now_ms).fmod 12))
            * month_ms p + month_ms p := by ring
      linarith
  have h12q : total_months p now2_ms = 12 * ((total_months p now_ms).fdiv 12 + 1) := by
    rw [htot2]
    linarith
  have hq2 : (total_months p now2_ms).fdiv 12 = (total_months p now_ms).fdiv 12 + 1 := by
    rw [h12q]
    exact Int.mul_fdiv_cancel_left _ (by norm_num)
  have hr2 : (total_months p now2_ms).fmod 12 = 0 := by
    rw [h12q, Int.fmod_eq_emod _ (by norm_num)]
    exact Int.mul_emod_right 12 _
  refine ⟨hB, ?_, ?_⟩
  · simp only [rp_info, MONTHS_PER_YEAR, hq2]
    ring
  · simp only [rp_info, MONTHS_PER_YEAR, hr2]
    norm_num

/-- C5 witness: the default configuration at the anchor; the next year
boundary 1758326400000 crossed at exactly that instant rolls the year from
1829 to 1830 and the month back to 1. -/
theorem claim5_witness :
    0 < defaultParams.daysperyear ∧
    (rp_info defaultParams 1757721600000).next_year_start_ms ≤ 1758326400000 ∧
    (1758326400000 : Int)
      < (rp_info defaultParams 1757721600000).next_year_start_ms
        + month_ms defaultParams ∧
    ((rp_info defaultParams 1757721600000).next_year_start_ms
      = defaultParams.lastdatechange_ms
        + (total_months defaultParams 1757721600000
            + (12 - (total_months defaultParams 1757721600000).fmod 12))
          * month_ms defaultParams ∧
    (rp_info defaultParams 1758326400000).current_year
      = (rp_info defaultParams 1757721600000).current_year + 1 ∧
    (rp_info defaultParams 1758326400000).current_month = 1) :=
  ⟨by decide, by decide, by decide,
    claim5_year_rollover defaultParams 1757721600000 1758326400000
      (by decide) (by decide) (by decide)⟩

/-- C6: two instants in the same in-universe month (equal `total_months`)
yield equal `current_month` and `current_year`, and `ms_into_month` grows by
exactly `now2 − now1`. -/
theorem claim6_same_month (p : CompuproParams) (now1_ms now2_ms : Int)
    (_h : 0 < p.daysperyear) (_hlt : now1_ms < now2_ms)
    (hsame : total_months p now1_ms = total_months p now2_ms) :
    (rp_info p now1_ms).current_month = (rp_info p now2_ms).current_month ∧
    (rp_info p now1_ms).current_year = (rp_info p now2_ms).current_year ∧
    (rp_info p now2_ms).ms_into_month
      = (rp_info p now1_ms).ms_into_month + (now2_ms - now1_ms) := by
  refine ⟨?_, ?_, ?_⟩ <;>
    simp only [rp_info, elapsed_ms, MONTHS_PER_YEAR, hsame] <;>
    ring

/-- C6 witness: the default configuration, 1 second after the anchor versus
the anchor itself (both in month 0). -/
theorem claim6_witness :
    0 < defaultParams.daysperyear ∧ (1757721600000 : Int) < 1757721601000 ∧
    total_months defaultParams 1757721600000 = total_months defaultParams 1757721601000 ∧
    ((rp_info defaultParams 1757721600000).current_month
      = (rp_info defaultParams 1757721601000).current_month ∧
    (rp_info defaultParams 1757721600000).current_year
      = (rp_info defaultParams 1757721601000).current_year ∧
    (rp_info defaultParams 1757721601000).ms_into_month
      = (rp_info defaultParams 1757721600000).ms_into_month
        + (1757721601000 - 1757721600000)) :=
  ⟨by decide, by decide, by decide,
    claim6_same_month defaultParams 1757721600000 1757721601000
      (by decide) (by decide) (by decide)⟩

/-- C10: the MONTH_NAMES lookup index `(current_month - 1) % 12` lies in
[0,11] for every integer month value, so the table lookup in
`compute_channel_name` always succeeds. -/
theorem claim10_total_lookup (current_month : Int) :
    0 ≤ (current_month - 1).fmod 12 ∧
    (current_month - 1).fmod 12 < 12 ∧
    month_name_index current_month < MONTH_NAMES.length ∧
    (month_name_lookup current_month).isSome = true := by
  have h0 := fmod_nonneg_of_pos (current_month - 1) (show (0:Int) < 12 by norm_num)
  have h1 := fmod_lt_of_pos (current_month - 1) (show (0:Int) < 12 by norm_num)
  have hidx : month_name_index current_month < MONTH_NAMES.length := by
    unfold month_name_index
    have hlen : MONTH_NAMES.length = 12 := rfl
    rw [hlen]
    exact (Int.toNat_lt h0).mpr (by exact_mod_cast h1)
  refine ⟨h0, h1, hidx, ?_⟩
  unfold month_name_lookup
  rw [Option.isSome_iff_ne_none]
  intro hnone
  exact absurd (List.get?_eq_none.mp hnone) (by omega)

/-! ### Retry loop lemmas -/

theorem retry_loop_eq_ok {outcomes : Nat → Attempt} {attempt : Nat}
    {body : String} {code : Int} (fuel : Nat)
    (h : outcomes attempt = .ok body code) :
    retry_loop outcomes attempt fuel
      = { outcome := .returned body code, attemptsUsed := 1, sleeps := [] } := by
  cases fuel <;> simp [retry_loop, h]

theorem retry_loop_eq_http_noretry {outcomes : Nat → Attempt} {attempt : Nat}
    (fuel : Nat) {b : Bool} (h : outcomes attempt = .httpErr b)
    (hstop : b = false ∨ fuel = 0) :
    retry_loop outcomes attempt fuel
      = { outcome := .raisedHttp, attemptsUsed := 1, sleeps := [] } := by
  cases fuel with
  | zero => cases b <;> simp [retry_loop, h]
  | succ fuel =>
    rcases hstop with hb | hfuel
    · subst hb
      simp [retry_loop, h]
    · exact absurd hfuel (Nat.succ_ne_zero fuel)

theorem retry_loop_eq_url_zero {outcomes : Nat → Attempt} {attempt : Nat}
    (h : outcomes attempt = .urlErr) :
    retry_loop outcomes attempt 0
      = { outcome := .raisedUrl, attemptsUsed := 1, sleeps := [] } := by
  simp [retry_loop, h]

theorem retry_loop_eq_retry {outcomes : Nat → Attempt} {attempt fuel : Nat}
    (h : outcomes attempt = .httpErr true ∨ outcomes attempt = .urlErr) :
    retry_loop outcomes attempt (fuel + 1)
      = { outcome := (retry_loop outcomes (attempt + 1) fuel).outcome,
          attemptsUsed := (retry_loop outcomes (attempt + 1) fuel).attemptsUsed + 1,
          sleeps := backoff_at attempt :: (retry_loop outcomes (attempt + 1) fuel).sleeps } := by
  rcases h with h | h <;> simp [retry_loop, h]

theorem retry_loop_attempts_pos (outcomes : Nat → Attempt) (fuel : Nat) :
    ∀ attempt, 1 ≤ (retry_loop outcomes attempt fuel).attemptsUsed := by
  induction fuel with
  | zero =>
    intro attempt
    cases h : outcomes attempt with
    | ok body code => rw [retry_loop_eq_ok 0 h]
    | httpErr b => rw [retry_loop_eq_http_noretry 0 h (Or.inr rfl)]
    | urlErr => rw [retry_loop_eq_url_zero h]
  | succ fuel ih =>
    intro attempt
    cases h : outcomes attempt with
    | ok body code => rw [retry_loop_eq_ok (fuel + 1) h]
    | httpErr b =>
      cases b with
      | false => rw [retry_loop_eq_http_noretry (fuel + 1) h (Or.inl rfl)]
      | true =>
        rw [retry_loop_eq_retry (Or.inl h)]
        exact Nat.le_add_left 1 _
    | urlErr =>
      rw [retry_loop_eq_retry (Or.inr h)]
      exact Nat.le_add_left 1 _

theorem retry_loop_attempts_le (outcomes : Nat → Attempt) (fuel : Nat) :
    ∀ attempt, (retry_loop outcomes attempt fuel).attemptsUsed ≤ fuel + 1 := by
  induction fuel with
  | zero =>
    intro attempt
    cases h : outcomes attempt with
    | ok body code => rw [retry_loop_eq_ok 0 h]
    | httpErr b => rw [retry_loop_eq_http_noretry 0 h (Or.inr rfl)]
    | urlErr => rw [retry_loop_eq_url_zero h]
  | succ fuel ih =>
    intro attempt
    cases h : outcomes attempt with
    | ok body code =>
      rw [retry_loop_eq_ok (fuel + 1) h]
      show (1:Nat) ≤ fuel + 1 + 1
      omega
    | httpErr b =>
      cases b with
      | false =>
        rw [retry_loop_eq_http_noretry (fuel + 1) h (Or.inl rfl)]
        show (1:Nat) ≤ fuel + 1 + 1
        omega
      | true =>
        rw [retry_loop_eq_retry (Or.inl h)]
        have := ih (attempt + 1)
        show (retry_loop outcomes (attempt + 1) fuel).attemptsUsed + 1 ≤ fuel + 1 + 1
        omega
    | urlErr =>
      rw [retry_loop_eq_retry (Or.inr h)]
      have := ih (attempt + 1)
      show (retry_loop outcomes (attempt + 1) fuel).attemptsUsed + 1 ≤ fuel + 1 + 1
      omega

theorem retry_loop_sleeps (outcomes : Nat → Attempt) (fuel : Nat) :
    ∀ attempt, (retry_loop outcomes attempt fuel).sleeps
      = (List.range ((retry_loop outcomes attempt fuel).attemptsUsed - 1)).map
          (fun i => backoff_at (attempt + i)) := by
  induction fuel with
  | zero =>
    intro attempt
    cases h : outcomes attempt with
    | ok body code => rw [retry_loop_eq_ok 0 h]; rfl
    | httpErr b => rw [retry_loop_eq_http_noretry 0 h (Or.inr rfl)]; rfl
    | urlErr => rw [retry_loop_eq_url_zero h]; rfl
  | succ fuel ih =>
    intro attempt
    have hstep : ∀ hretry : outcomes attempt = .httpErr true ∨ outcomes attempt = .urlErr,
        (retry_loop outcomes attempt (fuel + 1)).sleeps
          = (List.range ((retry_loop outcomes attempt (fuel + 1)).attemptsUsed - 1)).map
              (fun i => backoff_at (attempt + i)) := by
      intro hretry
      rw [retry_loop_eq_retry hretry]
      obtain ⟨n, hn⟩ : ∃ n, (retry_loop outcomes (attempt + 1) fuel).attemptsUsed = n + 1 :=
        ⟨(retry_loop outcomes (attempt + 1) fuel).attemptsUsed - 1,
          by have := retry_loop_attempts_pos outcomes fuel (attempt + 1); omega⟩
      show backoff_at attempt :: (retry_loop outcomes (attempt + 1) fuel).sleeps
          = (List.range ((retry_loop outcomes (attempt + 1) fuel).attemptsUsed + 1 - 1)).map
              (fun i => backoff_at (attempt + i))
      rw [ih (attempt + 1), hn]
      simp only [Nat.add_sub_cancel, List.range_succ_eq_map, List.map_cons,
        List.map_map, Nat.add_zero]
      congr 1
      apply List.map_congr_left
      intro i _
      simp only [Function.comp]
      congr 1
      omega
    cases h : outcomes attempt with
    | ok body code => rw [retry_loop_eq_ok (fuel + 1) h]; rfl
    | httpErr b =>
      cases b with
      | false => rw [retry_loop_eq_http_noretry (fuel + 1) h (Or.inl rfl)]; rfl
      | true => exact hstep (Or.inl h)
    | urlErr => exact hstep (Or.inr h)

theorem retry_loop_retried_retryable (outcomes : Nat → Attempt) (fuel : Nat) :
    ∀ attempt i, i + 1 < (retry_loop outcomes attempt fuel).attemptsUsed →
      (outcomes (attempt + i)).retryable = true := by
  induction fuel with
  | zero =>
    intro attempt i hi
    cases h : outcomes attempt with
    | ok body code =>
      rw [retry_loop_eq_ok 0 h] at hi
      replace hi : i + 1 < 1 := hi
      omega
    | httpErr b =>
      rw [retry_loop_eq_http_noretry 0 h (Or.inr rfl)] at hi
      replace hi : i + 1 < 1 := hi
      omega
    | urlErr =>
      rw [retry_loop_eq_url_zero h] at hi
      replace hi : i + 1 < 1 := hi
      omega
  | succ fuel ih =>
    intro attempt i hi
    have hstep : ∀ hretry : outcomes attempt = .httpErr true ∨ outcomes attempt = .urlErr,
        (outcomes (attempt + i)).retryable = true := by
      intro hretry
      rw [retry_loop_eq_retry hretry] at hi
      replace hi : i + 1 < (retry_loop outcomes (attempt + 1) fuel).attemptsUsed + 1 := hi
      cases i with
      | zero =>
        rcases hretry with h | h <;> simp [h, Attempt.retryable]
      | succ j =>
        have hj := ih (attempt + 1) j (by omega)
        have hx : attempt + 1 + j = attempt + (j + 1) := by omega
        rwa [hx] at hj
    cases h : outcomes attempt with
    | ok body code =>
      rw [retry_loop_eq_ok (fuel + 1) h] at hi
      replace hi : i + 1 < 1 := hi
      omega
    | httpErr b =>
      cases b with
      | false =>
        rw [retry_loop_eq_http_noretry (fuel + 1) h (Or.inl rfl)] at hi
        replace hi : i + 1 < 1 := hi
        omega
      | true => exact hstep (Or.inl h)
    | urlErr => exact hstep (Or.inr h)

theorem retry_loop_outcome (outcomes : Nat → Attempt) (fuel : Nat) :
    ∀ attempt, (retry_loop outcomes attempt fuel).outcome
      = (outcomes (attempt
          + ((retry_loop outcomes attempt fuel).attemptsUsed - 1))).finalResult := by
  induction fuel with
  | zero =>
    intro attempt
    cases h : outcomes attempt with
    | ok body code => rw [retry_loop_eq_ok 0 h]; simp [h, Attempt.finalResult]
    | httpErr b =>
      rw [retry_loop_eq_http_noretry 0 h (Or.inr rfl)]
      simp [h, Attempt.finalResult]
    | urlErr => rw [retry_loop_eq_url_zero h]; simp [h, Attempt.finalResult]
  | succ fuel ih =>
    intro attempt
    have hstep : ∀ hretry : outcomes attempt = .httpErr true ∨ outcomes attempt = .urlErr,
        (retry_loop outcomes attempt (fuel + 1)).outcome
          = (outcomes (attempt
              + ((retry_loop outcomes attempt (fuel + 1)).attemptsUsed - 1))).finalResult := by
      intro hretry
      rw [retry_loop_eq_retry hretry]
      show (retry_loop outcomes (attempt + 1) fuel).outcome
          = (outcomes (attempt
              + ((retry_loop outcomes (attempt + 1) fuel).attemptsUsed + 1 - 1))).finalResult
      have hpos := retry_loop_attempts_pos outcomes fuel (attempt + 1)
      have hx : attempt + ((retry_loop outcomes (attempt + 1) fuel).attemptsUsed + 1 - 1)
          = attempt + 1 + ((retry_loop outcomes (attempt + 1) fuel).attemptsUsed - 1) := by
        omega
      rw [hx]
      exact ih (attempt + 1)
    cases h : outcomes attempt with
    | ok body code => rw [retry_loop_eq_ok (fuel + 1) h]; simp [h, Attempt.finalResult]
    | httpErr b =>
      cases b with
      | false =>
        rw [retry_loop_eq_http_noretry (fuel + 1) h (Or.inl rfl)]
        simp [h, Attempt.finalResult]
      | true => exact hstep (Or.inl h)
    | urlErr => exact hstep (Or.inr h)

theorem retry_loop_stop_reason (outcomes : Nat → Attempt) (fuel : Nat) :
    ∀ attempt, (retry_loop outcomes attempt fuel).attemptsUsed ≤ fuel →
      (outcomes (attempt
        + ((retry_loop outcomes attempt fuel).attemptsUsed - 1))).retryable = false := by
  induction fuel with
  | zero =>
    intro attempt hle
    have := retry_loop_attempts_pos outcomes 0 attempt
    omega
  | succ fuel ih =>
    intro attempt hle
    have hstep : ∀ hretry : outcomes attempt = .httpErr true ∨ outcomes attempt = .urlErr,
        (outcomes (attempt
          + ((retry_loop outcomes attempt (fuel + 1)).attemptsUsed - 1))).retryable = false := by
      intro hretry
      rw [retry_loop_eq_retry hretry] at hle ⊢
      replace hle : (retry_loop outcomes (attempt + 1) fuel).attemptsUsed + 1 ≤ fuel + 1 := hle
      have hpos := retry_loop_attempts_pos outcomes fuel (attempt + 1)
      show (outcomes (attempt
          + ((retry_loop outcomes (attempt + 1) fuel).attemptsUsed + 1 - 1))).retryable = false
      have hx : attempt + ((retry_loop outcomes (attempt + 1) fuel).attemptsUsed + 1 - 1)
          = attempt + 1 + ((retry_loop outcomes (attempt + 1) fuel).attemptsUsed - 1) := by
        omega
      rw [hx]
      exact ih (attempt + 1) (by omega)
    cases h : outcomes attempt with
    | ok body code =>
      rw [retry_loop_eq_ok (fuel + 1) h]
      simp [h, Attempt.retryable]
    | httpErr b =>
      cases b with
      | false =>
        rw [retry_loop_eq_http_noretry (fuel + 1) h (Or.inl rfl)]
        simp [h, Attempt.retryable]
      | true => exact hstep (Or.inl h)
    | urlErr => exact hstep (Or.inr h)



/-- C9: both HTTP helpers run the same bounded loop: at most
`RETRY_COUNT + 1 = 4` attempts, sleeping `2`, `6`, then `20` seconds
between successive attempts (the last backoff entry reused beyond index 2),
retrying exactly on the Cloudflare-1010 body pattern and on `URLError`, and
surfacing the final attempt by returning its response or raising its error
instead of looping further. -/
theorem claim9_bounded_retry (outcomes : Nat → Attempt) (data : String) :
    RETRY_COUNT + 1 = 4 ∧
    1 ≤ (http_get_with_retries outcomes RETRY_COUNT).attemptsUsed ∧
    (http_get_with_retries outcomes RETRY_COUNT).attemptsUsed ≤ 4 ∧
    (http_get_with_retries outcomes RETRY_COUNT).sleeps
      = (List.range ((http_get_with_retries outcomes RETRY_COUNT).attemptsUsed - 1)).map
          backoff_at ∧
    backoff_at 0 = 2 ∧ backoff_at 1 = 6 ∧ (∀ i, 2 ≤ i → backoff_at i = 20) ∧
    (∀ i, i + 1 < (http_get_with_retries outcomes RETRY_COUNT).attemptsUsed →
      (outcomes i).retryable = true) ∧
    (http_get_with_retries outcomes RETRY_COUNT).outcome
      = (outcomes
          ((http_get_with_retries outcomes RETRY_COUNT).attemptsUsed - 1)).finalResult ∧
    ((http_get_with_retries outcomes RETRY_COUNT).attemptsUsed ≤ RETRY_COUNT →
      (outcomes
        ((http_get_with_retries outcomes RETRY_COUNT).attemptsUsed - 1)).retryable
        = false) ∧
    http_patch_json_with_retries data outcomes RETRY_COUNT
      = http_get_with_retries outcomes RETRY_COUNT := by
  refine ⟨rfl, retry_loop_attempts_pos outcomes 3 0,
    retry_loop_attempts_le outcomes 3 0, ?_, rfl, rfl, ?_, ?_, ?_, ?_, rfl⟩
  · have h := retry_loop_sleeps outcomes 3 0
    simpa using h
  · intro i hi
    have hmin : min i (RETRY_BACKOFF_SEC.length - 1) = 2 := by
      simp only [RETRY_BACKOFF_SEC, List.length]
      omega
    unfold backoff_at
    rw [hmin]
    rfl
  · intro i hi
    have h := retry_loop_retried_retryable outcomes 3 0 i hi
    simpa using h
  · have h := retry_loop_outcome outcomes 3 0
    simpa using h
  · intro hle
    have h := retry_loop_stop_reason outcomes 3 0 hle
    simpa using h

/-- C9 witness: a network that yields a URLError, then a 1010-blocked
HTTPError, then a 200 response: three attempts, sleeping 2 s and 6 s. -/
theorem claim9_witness :
    http_get_with_retries
      (fun n => if n = 0 then Attempt.urlErr
        else if n = 1 then Attempt.httpErr true
        else Attempt.ok "{}" 200) RETRY_COUNT
      = { outcome := ReqOutcome.returned "{}" 200, attemptsUsed := 3,
          sleeps := [2, 6] } ∧
    (http_get_with_retries
      (fun n => if n = 0 then Attempt.urlErr
        else if n = 1 then Attempt.httpErr true
        else Attempt.ok "{}" 200) RETRY_COUNT).attemptsUsed ≤ 4 := by
  refine ⟨by decide, ?_⟩
  exact (claim9_bounded_retry
    (fun n => if n = 0 then Attempt.urlErr
      else if n = 1 then Attempt.httpErr true
      else Attempt.ok "{}" 200) "{}").2.2.1

/-- C7: in a run whose GET succeeds with status 200 and a parsed body, the
synchronizer issues no PATCH exactly when the fetched name equals the
computed label, and otherwise issues exactly one PATCH carrying the new
label. -/
theorem claim7_conditional_write (parse_name : Option String) (new_name : String) :
    (parse_name = some new_name →
      main_writes (GetResult.ok 200 (some parse_name)) new_name = []) ∧
    (parse_name ≠ some new_name →
      main_writes (GetResult.ok 200 (some parse_name)) new_name = [new_name]) := by
  constructor <;> intro h <;> simp [main_writes, h]

/-- C7 witness: an up-to-date channel name produces no write; a stale one
produces exactly one write with the new label. -/
theorem claim7_witness :
    main_writes (GetResult.ok 200 (some (some "📅 January 1829"))) "📅 January 1829"
      = [] ∧
    main_writes (GetResult.ok 200 (some (some "📅 December 1828"))) "📅 January 1829"
      = ["📅 January 1829"] :=
  ⟨(claim7_conditional_write (some "📅 January 1829") "📅 January 1829").1 rfl,
   (claim7_conditional_write (some "📅 December 1828") "📅 January 1829").2
     (by decide)⟩

/-- C8 counterexample: with CHANNEL_ID parseable but DISCORD_TOKEN unset,
the module-level `raise SystemExit("DISCORD_TOKEN environment variable not
set...")` exits the process with status 1, not 0 — a configuration-load
failure is signalled through the exit code. -/
theorem claim8_counterexample :
    run_exit_code
      { channel_id_parses := true, discord_token := none,
        get_result := GetResult.failure, patch_outcome := ReqOutcome.raisedUrl }
      = 1 ∧
    run_exit_code
      { channel_id_parses := true, discord_token := none,
        get_result := GetResult.failure, patch_outcome := ReqOutcome.raisedUrl }
      ≠ 0 := by
  refine ⟨rfl, by decide⟩

/-- C8 amended: once configuration loading succeeds (CHANNEL_ID parses and
DISCORD_TOKEN is set non-empty), the run exits 0 for every outcome of the
two network calls, every failure included; configuration-load failures exit
with status 1. -/
theorem claim8_amended (env : RunEnv)
    (hc : env.channel_id_parses = true)
    (ht : token_missing env.discord_token = false) :
    run_exit_code env = 0 := by
  simp [run_exit_code, hc, ht]

/-- C8 amended witness: a run with valid configuration whose GET fails and
whose PATCH would raise still exits 0. -/
theorem claim8_witness :
    run_exit_code
      { channel_id_parses := true, discord_token := some "token",
        get_result := GetResult.failure, patch_outcome := ReqOutcome.raisedUrl }
      = 0 :=
  claim8_amended
    { channel_id_parses := true, discord_token := some "token",
      get_result := GetResult.failure, patch_outcome := ReqOutcome.raisedUrl }
    rfl rfl

end UpdateChannel

